import Mathlib

/-!
Verification development for the bermudafunk symnet-control repository.

Shallow embedding of:
* `bermudafunk/SymNet.py` — the SymNet UDP protocol correlator
  (`SymNetRawProtocol.datagram_received`), the controller cache
  (`SymNetController._set_raw_value`) and the selector position mapping
  (`SymNetSelectorController.get_position` / `set_position`);
* `bermudafunk/dispatcher/__init__.py` — button-event trigger mapping,
  the three name-driven timer starters, `Dispatcher.load`, and
  `calc_next_hour_timestamp`;
* `bermudafunk/dispatcher/transitions.py` — the per-state LED recipes.

Machine integers are modelled as `Nat`/`Int`; Python floats in the selector
mapping and the timestamp computation are modelled as exact rationals with
Python 3's round-half-to-even `round`.
-/

/-! ## SymNet protocol: datagram splitting and the push-line regex -/

/-- `data_str.split('\r')` on a decoded datagram body, character-list level.
Mirrors Python `str.split` on a single-character separator (keeps empty
segments). -/
def splitCR : List Char → List (List Char)
  | [] => [[]]
  | '\r' :: rest => [] :: splitCR rest
  | c :: rest =>
    match splitCR rest with
    | [] => [[c]]
    | l :: ls => (c :: l) :: ls

/-- `lines = [lines[i] for i in range(len(lines)) if len(lines[i]) > 0]`:
the non-empty CR-separated segments of the datagram body
(`SymNet.py:43-44`). -/
def nonEmptyLines (data : List Char) : List (List Char) :=
  (splitCR data).filter (fun l => l ≠ [])

/-- Numeric value of a digit string, as `int()` computes it on a matched
digit group. -/
def natOfDigits (l : List Char) : ℕ :=
  l.foldl (fun acc c => 10 * acc + (c.toNat - '0'.toNat)) 0

/-- Python regex `$` (no MULTILINE): matches at the end of the string or just
before a final newline. `dollarAt rest` says `$` succeeds when `rest` is the
unconsumed suffix. -/
def dollarAt : List Char → Bool
  | [] => true
  | ['\n'] => true
  | _ => false

/-- The controller state pushed on the global queue
(`SymNetRawControllerState` in `SymNet.py:10`). -/
structure SymNetRawControllerState where
  controller_number : ℕ
  controller_value : ℤ
deriving DecidableEq, Repr

/-- `re.match('^#([0-9]{5})=(-?[0-9]{4,5})$', line)` together with the
`int(...)` conversions of the two groups (`SymNet.py:81-89`): `#`, exactly
five digits, `=`, optional minus sign, a run of 4 or 5 digits, end of line.
Returns the pushed controller state on a match. -/
def parsePushLine (line : List Char) : Option SymNetRawControllerState :=
  match line with
  | '#' :: rest =>
    let num := rest.take 5
    let rest2 := rest.drop 5
    if num.length = 5 ∧ num.all Char.isDigit then
      match rest2 with
      | '=' :: vs =>
        let signAndDigits : ℤ × List Char :=
          match vs with
          | '-' :: tl => (-1, tl)
          | _ => (1, vs)
        let run := signAndDigits.2.takeWhile Char.isDigit
        let after := signAndDigits.2.drop run.length
        if (run.length = 4 ∨ run.length = 5) ∧ dollarAt after then
          some ⟨natOfDigits num, signAndDigits.1 * (natOfDigits run : ℤ)⟩
        else none
      | _ => none
    else none
  | _ => none

/-! ## SymNet protocol: pending callbacks and `datagram_received` -/

/-- The two user callback functions that appear in the repository:
`SymNetController._assure_callback` (for `CS`, paired with the ACK/NAK
regex) and `SymNetController._retrieve_callback` (for `GS2`). -/
inductive CbKind where
  | assure
  | retrieve
deriving DecidableEq, Repr

/-- The two regex shapes a `SymNetRawProtocolCallback` carries in the
repository: `'^(ACK)|(NAK)\r$'` (`SymNet.py:145`) and
`'^<n> ([0-9]{1,5})\r$'` (`SymNet.py:162`). -/
inductive CbRegex where
  | ackNak
  | gs2 (n : ℕ)
deriving DecidableEq, Repr

/-- The information a successful `re.match` hands to the user callback:
which alternative matched for the ACK/NAK regex (group 1 is the `ACK`
group), or the captured value digits for the GS2 response regex. -/
inductive MatchG where
  | ackG
  | nakG
  | gs2G (v : ℕ)
deriving DecidableEq, Repr

/-- A pending `SymNetRawProtocolCallback` (`SymNet.py:13-26`): user
function, expected line count, optional regex.  `id` stands for object
identity, used by `list.remove`. -/
structure ProtoCallback where
  id : ℕ
  kind : CbKind
  expected_lines : ℕ
  regex : Option CbRegex
deriving DecidableEq, Repr

/-- `re.match('^(ACK)|(NAK)\r$', data_str)`: because the alternation binds
the whole pattern, this matches either `ACK` as a prefix of the body
(group 1 = `'ACK'`), or a body that is exactly `NAK\r` (group 1 absent). -/
def matchAckNak (data : List Char) : Option MatchG :=
  if data.take 3 = ['A', 'C', 'K'] then some .ackG
  else if data.take 4 = ['N', 'A', 'K', '\r'] ∧ dollarAt (data.drop 4) then some .nakG
  else none

/-- `re.match('^<n> ([0-9]{1,5})\r$', data_str)` for controller number `n`:
the decimal controller number, a space, 1–5 digits (captured), `\r`,
end of string. -/
def matchGS2 (n : ℕ) (data : List Char) : Option MatchG :=
  let pre := (toString n).data ++ [' ']
  if data.take pre.length = pre then
    let rest := data.drop pre.length
    let run := rest.takeWhile Char.isDigit
    let after := rest.drop run.length
    if 1 ≤ run.length ∧ run.length ≤ 5 then
      match after with
      | '\r' :: tail => if dollarAt tail then some (.gs2G (natOfDigits run)) else none
      | _ => none
    else none
  else none

/-- Dispatch on the regex shape carried by a callback. -/
def matchRegex : CbRegex → List Char → Option MatchG
  | .ackNak, d => matchAckNak d
  | .gs2 n, d => matchGS2 n d

/-- What `SymNetRawProtocolCallback.callback` does to the promise:
`rejected` iff the user function raised (`future.set_exception`),
otherwise `resolved` carrying the value passed to `_set_raw_value` in the
`_retrieve_callback` case (`SymNet.py:20-26`). -/
inductive CbOutcome where
  | rejected
  | resolved (setValue : Option ℕ)
deriving DecidableEq, Repr

/-- Run the user function on the (optional) match object:
* `_assure_callback` (`SymNet.py:151-155`) raises iff `m is None`
  (`m.group(1)` is `'ACK'`, a digit string, or `None` — never `'NAK'`);
* `_retrieve_callback` (`SymNet.py:168-171`) raises iff `m is None` or
  `int(m.group(1))` fails, and otherwise calls `_set_raw_value` on the
  captured value. -/
def deliver (k : CbKind) (m : Option MatchG) : CbOutcome :=
  match m with
  | none => .rejected
  | some g =>
    match k with
    | .assure => .resolved none
    | .retrieve =>
      match g with
      | .gs2G v => .resolved (some v)
      | _ => .rejected

/-- The head-first walk of `callback_queue` in `datagram_received`
(`SymNet.py:48-69`): on a lone-`NAK` body the head callback is called with
no match object; otherwise a callback with a regex consumes the datagram if
the regex matches the whole body, a callback without a regex consumes it if
the non-empty line count equals its expectation; a callback that does not
consume stays pending and the next one is tried.  Returns the index of the
consumed callback, the callback, and the promise outcome. -/
def walkQueue : List ProtoCallback → List (List Char) → List Char →
    Option (ℕ × ProtoCallback × CbOutcome)
  | [], _, _ => none
  | c :: rest, lines, data =>
    if lines = [['N', 'A', 'K']] then some (0, c, deliver c.kind none)
    else
      match c.regex with
      | some r =>
        match matchRegex r data with
        | some m => some (0, c, deliver c.kind (some m))
        | none => (walkQueue rest lines data).map (fun p => (p.1 + 1, p.2))
      | none =>
        if lines.length = c.expected_lines then some (0, c, deliver c.kind none)
        else (walkQueue rest lines data).map (fun p => (p.1 + 1, p.2))

/-- The observable result of one `datagram_received` call: the callback
queue afterwards, the consumed callback (with its promise outcome), the
controller states put on the push channel in order, whether an uncaught
lone NAK was logged, and the malformed lines logged as errors. -/
structure DgResult where
  queue : List ProtoCallback
  consumed : Option (ProtoCallback × CbOutcome)
  pushed : List SymNetRawControllerState
  uncaughtNak : Bool
  errorLines : List (List Char)
deriving DecidableEq, Repr

/-- `SymNetRawProtocol.datagram_received` (`SymNet.py:40-89`): split the
body on CR, drop empty segments, walk the pending-callback queue; if no
callback consumed the datagram, log-and-discard a lone `NAK`/`ACK`,
otherwise parse every non-empty line as a push line, logging the
malformed ones. -/
def datagram_received (queue : List ProtoCallback) (data : List Char) : DgResult :=
  let lines := nonEmptyLines data
  match walkQueue queue lines data with
  | some (i, c, out) => ⟨queue.eraseIdx i, some (c, out), [], false, []⟩
  | none =>
    if lines = [['N', 'A', 'K']] then ⟨queue, none, [], true, []⟩
    else if lines = [['A', 'C', 'K']] then ⟨queue, none, [], false, []⟩
    else ⟨queue, none, lines.filterMap parsePushLine, false,
          lines.filter (fun l => (parsePushLine l).isNone)⟩

/-! ## Python rounding and the selector position mapping -/

/-- Python 3 `round` on an exact value: round half to even
(the claims' `round((p-1)/(N-1)*65535)` etc. are modelled over ℚ). -/
def pyRound (q : ℚ) : ℤ :=
  if q - ⌊q⌋ < 1 / 2 then ⌊q⌋
  else if 1 / 2 < q - ⌊q⌋ then ⌊q⌋ + 1
  else if ⌊q⌋ % 2 = 0 then ⌊q⌋ else ⌊q⌋ + 1

/-- The raw value `SymNetSelectorController.set_position` writes:
`int(round((position - 1) / (self.position_count - 1) * 65535))`
(`SymNet.py:189`). -/
def set_position_raw (position_count position : ℤ) : ℤ :=
  pyRound (((position : ℚ) - 1) / ((position_count : ℚ) - 1) * 65535)

/-- The position `SymNetSelectorController.get_position` computes from a raw
value: `int(round(raw / 65535 * (self.position_count - 1) + 1))`
(`SymNet.py:185`). -/
def get_position_of_raw (position_count raw : ℤ) : ℤ :=
  pyRound ((raw : ℚ) / 65535 * ((position_count : ℚ) - 1) + 1)

/-! ## Controller cache and observers -/

/-- The mutable fields of a `SymNetController` that `_set_raw_value`
touches (`SymNet.py:108-111`): cached raw value, its freshness time, and
the registered observers (abstract ids, in registration order). -/
structure CtrlState where
  raw_value : ℤ
  raw_value_time : ℚ
  observer : List ℕ
deriving DecidableEq, Repr

/-- `SymNetController._set_raw_value` (`SymNet.py:130-138`): store the new
value, stamp the time, and — iff the value changed — schedule every
registered observer with `(old_value, new_value)`.  Returns the new state
and the scheduled observer calls `(observer, old, new)` in order. -/
def set_raw_value (st : CtrlState) (now : ℚ) (value : ℤ) :
    CtrlState × List (ℕ × ℤ × ℤ) :=
  let old := st.raw_value
  (⟨value, now, st.observer⟩,
   if old ≠ value then st.observer.map (fun o => (o, old, value)) else [])

/-! ## `set_position` as an effect trace -/

/-- One observable step of `SymNetSelectorController.set_position`
(`SymNet.py:187-190` together with `_set_raw_value` and
`_assure_current_state`). -/
inductive Eff where
  | cacheWrite (v : ℤ)
  | stampTime (t : ℚ)
  | scheduleObserver (o : ℕ) (old new : ℤ)
  | sendCS (cn : ℕ) (v : ℤ)
  | awaitAck
deriving DecidableEq, Repr

/-- The device's answer to the `CS` request issued by
`_assure_current_state`. -/
inductive AckResult where
  | ack
  | nak
deriving DecidableEq, Repr

/-- How `set_position` can fail: the `assert` on the position range
(`SymNet.py:188`), or the exception `_assure_callback` raises into the
awaited future when the device answers `NAK` (`SymNet.py:151-155`). -/
inductive SetErr where
  | assertionFailed
  | protocolNak
deriving DecidableEq, Repr

/-- `SymNetSelectorController.set_position` (`SymNet.py:187-190`): assert
the range, run `_set_raw_value` on the mapped raw value (cache write, time
stamp, observer scheduling), then send `CS` and await the acknowledgement.
Returns the controller state afterwards, the ordered effect trace, and the
call's outcome. -/
def set_position (st : CtrlState) (now : ℚ) (position_count : ℤ) (cn : ℕ)
    (position : ℤ) (ackR : AckResult) :
    CtrlState × List Eff × Except SetErr Unit :=
  if 1 ≤ position ∧ position ≤ position_count then
    let v := set_position_raw position_count position
    let stSched := set_raw_value st now v
    let tr := Eff.cacheWrite v :: Eff.stampTime now ::
      (stSched.2.map (fun c => Eff.scheduleObserver c.1 c.2.1 c.2.2) ++
        [Eff.sendCS cn v, Eff.awaitAck])
    match ackR with
    | .ack => (stSched.1, tr, .ok ())
    | .nak => (stSched.1, tr, .error .protocolNak)
  else (st, [], .error .assertionFailed)

/-! ## Dispatcher timer starters -/

/-- An `asyncio.Task` held in one of the dispatcher's timer slots: object
identity plus whether `task.done()` is true. -/
structure TimerTask where
  id : ℕ
  done : Bool
deriving DecidableEq, Repr

/-- `Dispatcher._start_next_hour_timer` (`dispatcher/__init__.py:358-363`):
`if self._next_hour_timer and not self._next_hour_timer.done(): return`,
else store a freshly created task. -/
def start_next_hour_timer (t : Option TimerTask) (fresh : ℕ) : Option TimerTask :=
  match t with
  | some tt => if tt.done then some ⟨fresh, false⟩ else some tt
  | none => some ⟨fresh, false⟩

/-- `Dispatcher._start_immediate_state_timer`
(`dispatcher/__init__.py:402-406`): same guard as the next-hour timer. -/
def start_immediate_state_timer (t : Option TimerTask) (fresh : ℕ) : Option TimerTask :=
  match t with
  | some tt => if tt.done then some ⟨fresh, false⟩ else some tt
  | none => some ⟨fresh, false⟩

/-- `Dispatcher._start_immediate_release_timer`
(`dispatcher/__init__.py:426-432`): the guard is
`if self._immediate_release_timer and self._immediate_release_timer.done():
return`, so a stored task that is *not* done falls through and is replaced
by a freshly created task. -/
def start_immediate_release_timer (t : Option TimerTask) (fresh : ℕ) : Option TimerTask :=
  match t with
  | some tt => if tt.done then some tt else some ⟨fresh, false⟩
  | none => some ⟨fresh, false⟩

/-! ## Dispatcher button-event mapping -/

/-- A studio, identified by its name (the `Studio` class lives in
`bermudafunk/dispatcher/data_types.py`, which only declares identity by
name as used here). -/
abbrev Studio := String

/-- The three studio button kinds (`Button` enum of
`bermudafunk/dispatcher/data_types.py`, iterated in
`dispatcher/__init__.py:176`; members per the spec: TAKEOVER, RELEASE,
IMMEDIATE). -/
inductive Button where
  | TAKEOVER
  | RELEASE
  | IMMEDIATE
deriving DecidableEq, Repr

/-- `button.name` for the trigger-name concatenation
`event.button.name + append` (`dispatcher/__init__.py:302`). -/
def buttonName : Button → String
  | .TAKEOVER => "TAKEOVER"
  | .RELEASE => "RELEASE"
  | .IMMEDIATE => "IMMEDIATE"

/-- A `ButtonEvent` as consumed by the dispatcher loop. -/
structure ButtonEvent where
  studio : Studio
  button : Button
deriving DecidableEq, Repr

/-- The `append` computation of
`Dispatcher._process_studio_button_events` (`dispatcher/__init__.py:287-298`):
`'_X'` if no studio X is set or the event comes from X, else `'_Y'` if no
studio Y is set or the event comes from Y, else `None`. -/
def buttonEventAppend (x y : Option Studio) (e : ButtonEvent) : Option String :=
  match x with
  | none => some "_X"
  | some xs =>
    if xs = e.studio then some "_X"
    else if y = none ∨ y = some e.studio then some "_Y"
    else none

/-- The trigger fired for a button event, if any:
`trigger_name = event.button.name + append` when `append` is set,
otherwise the event is dropped (`dispatcher/__init__.py:300-310`). -/
def processButtonEvent (x y : Option Studio) (e : ButtonEvent) : Option String :=
  (buttonEventAppend x y e).map (fun ap => buttonName e.button ++ ap)

/-! ## LED recipes per FSM state (`dispatcher/transitions.py`) -/

/-- `LedState` (`data_types`, values used in `transitions.py:30-34`). -/
inductive LedState where
  | OFF
  | ON
  | BLINK
deriving DecidableEq, Repr

/-- `LedStatus = (state, blink_freq)` as constructed by the `LedStatuses`
enum (`transitions.py:30-34`). -/
structure LedStatus where
  state : LedState
  blink_freq : ℕ
deriving DecidableEq, Repr

/-- `StudioLedStatus` — green, yellow, red LED statuses of one studio. -/
structure StudioLedStatus where
  green : LedStatus
  yellow : LedStatus
  red : LedStatus
deriving DecidableEq, Repr

/-- `LedStateTarget` (`transitions.py:13`). -/
structure LedStateTarget where
  x : StudioLedStatus
  y : StudioLedStatus
  other : StudioLedStatus
deriving DecidableEq, Repr

/-- `LedStatuses.OFF` (`transitions.py:31`). -/
def LedStatuses.OFF : LedStatus := ⟨.OFF, 2⟩

/-- `LedStatuses.ON` (`transitions.py:32`). -/
def LedStatuses.ON : LedStatus := ⟨.ON, 2⟩

/-- `LedStatuses.BLINK` (`transitions.py:33`). -/
def LedStatuses.BLINK : LedStatus := ⟨.BLINK, 2⟩

/-- `LedStatuses.BLINK_FAST` (`transitions.py:34`). -/
def LedStatuses.BLINK_FAST : LedStatus := ⟨.BLINK, 4⟩

/-- The ten members of the `States` enum (`transitions.py:38-208`). -/
inductive States where
  | AUTOMAT_ON_AIR
  | AUTOMAT_ON_AIR_IMMEDIATE_STATE_X
  | FROM_AUTOMAT_CHANGE_TO_STUDIO_X_ON_NEXT_HOUR
  | STUDIO_X_ON_AIR
  | FROM_STUDIO_X_CHANGE_TO_AUTOMAT_ON_NEXT_HOUR
  | STUDIO_X_ON_AIR_IMMEDIATE_STATE
  | STUDIO_X_ON_AIR_IMMEDIATE_RELEASE
  | FROM_STUDIO_X_CHANGE_TO_STUDIO_Y_ON_NEXT_HOUR
  | STUDIO_X_ON_AIR_STUDIO_Y_TAKEOVER_REQUEST
  | NOOP
deriving DecidableEq, Repr

/-- The `LedStateTarget` attached to each state in code
(`transitions.py:38-208`), transcribed row by row from the
`LedAwareState` constructions. -/
def led_state_target : States → LedStateTarget
  | .AUTOMAT_ON_AIR =>
    ⟨⟨LedStatuses.OFF, LedStatuses.OFF, LedStatuses.OFF⟩,
     ⟨LedStatuses.OFF, LedStatuses.OFF, LedStatuses.OFF⟩,
     ⟨LedStatuses.OFF, LedStatuses.OFF, LedStatuses.OFF⟩⟩
  | .AUTOMAT_ON_AIR_IMMEDIATE_STATE_X =>
    ⟨⟨LedStatuses.OFF, LedStatuses.OFF, LedStatuses.ON⟩,
     ⟨LedStatuses.OFF, LedStatuses.OFF, LedStatuses.OFF⟩,
     ⟨LedStatuses.OFF, LedStatuses.OFF, LedStatuses.OFF⟩⟩
  | .FROM_AUTOMAT_CHANGE_TO_STUDIO_X_ON_NEXT_HOUR =>
    ⟨⟨LedStatuses.BLINK, LedStatuses.OFF, LedStatuses.OFF⟩,
     ⟨LedStatuses.OFF, LedStatuses.OFF, LedStatuses.OFF⟩,
     ⟨LedStatuses.OFF, LedStatuses.OFF, LedStatuses.OFF⟩⟩
  | .STUDIO_X_ON_AIR =>
    ⟨⟨LedStatuses.ON, LedStatuses.OFF, LedStatuses.OFF⟩,
     ⟨LedStatuses.OFF, LedStatuses.OFF, LedStatuses.OFF⟩,
     ⟨LedStatuses.OFF, LedStatuses.OFF, LedStatuses.OFF⟩⟩
  | .FROM_STUDIO_X_CHANGE_TO_AUTOMAT_ON_NEXT_HOUR =>
    ⟨⟨LedStatuses.ON, LedStatuses.BLINK, LedStatuses.OFF⟩,
     ⟨LedStatuses.OFF, LedStatuses.OFF, LedStatuses.OFF⟩,
     ⟨LedStatuses.OFF, LedStatuses.OFF, LedStatuses.OFF⟩⟩
  | .STUDIO_X_ON_AIR_IMMEDIATE_STATE =>
    ⟨⟨LedStatuses.ON, LedStatuses.OFF, LedStatuses.ON⟩,
     ⟨LedStatuses.OFF, LedStatuses.OFF, LedStatuses.OFF⟩,
     ⟨LedStatuses.OFF, LedStatuses.OFF, LedStatuses.OFF⟩⟩
  | .STUDIO_X_ON_AIR_IMMEDIATE_RELEASE =>
    ⟨⟨LedStatuses.ON, LedStatuses.BLINK, LedStatuses.ON⟩,
     ⟨LedStatuses.OFF, LedStatuses.OFF, LedStatuses.OFF⟩,
     ⟨LedStatuses.OFF, LedStatuses.BLINK, LedStatuses.BLINK⟩⟩
  | .FROM_STUDIO_X_CHANGE_TO_STUDIO_Y_ON_NEXT_HOUR =>
    ⟨⟨LedStatuses.ON, LedStatuses.ON, LedStatuses.OFF⟩,
     ⟨LedStatuses.BLINK, LedStatuses.OFF, LedStatuses.OFF⟩,
     ⟨LedStatuses.OFF, LedStatuses.OFF, LedStatuses.OFF⟩⟩
  | .STUDIO_X_ON_AIR_STUDIO_Y_TAKEOVER_REQUEST =>
    ⟨⟨LedStatuses.ON, LedStatuses.BLINK, LedStatuses.OFF⟩,
     ⟨LedStatuses.OFF, LedStatuses.ON, LedStatuses.OFF⟩,
     ⟨LedStatuses.OFF, LedStatuses.OFF, LedStatuses.OFF⟩⟩
  | .NOOP =>
    ⟨⟨LedStatuses.OFF, LedStatuses.OFF, LedStatuses.OFF⟩,
     ⟨LedStatuses.OFF, LedStatuses.OFF, LedStatuses.OFF⟩,
     ⟨LedStatuses.OFF, LedStatuses.OFF, LedStatuses.OFF⟩⟩

/-- The LED recipe table of the spec (§6), one row per state, written with
the spec's codes OFF, ON, BLINK (2 Hz) and FAST (BLINK 4 Hz).  OFF and ON
carry the repository's default `blink_freq = 2` (the frequency carries no
meaning unless the state is BLINK). -/
def spec_led_recipe : States → LedStateTarget
  | .AUTOMAT_ON_AIR =>
    ⟨⟨⟨.OFF, 2⟩, ⟨.OFF, 2⟩, ⟨.OFF, 2⟩⟩,
     ⟨⟨.OFF, 2⟩, ⟨.OFF, 2⟩, ⟨.OFF, 2⟩⟩,
     ⟨⟨.OFF, 2⟩, ⟨.OFF, 2⟩, ⟨.OFF, 2⟩⟩⟩
  | .AUTOMAT_ON_AIR_IMMEDIATE_STATE_X =>
    ⟨⟨⟨.OFF, 2⟩, ⟨.OFF, 2⟩, ⟨.ON, 2⟩⟩,
     ⟨⟨.OFF, 2⟩, ⟨.OFF, 2⟩, ⟨.OFF, 2⟩⟩,
     ⟨⟨.OFF, 2⟩, ⟨.OFF, 2⟩, ⟨.OFF, 2⟩⟩⟩
  | .FROM_AUTOMAT_CHANGE_TO_STUDIO_X_ON_NEXT_HOUR =>
    ⟨⟨⟨.BLINK, 2⟩, ⟨.OFF, 2⟩, ⟨.OFF, 2⟩⟩,
     ⟨⟨.OFF, 2⟩, ⟨.OFF, 2⟩, ⟨.OFF, 2⟩⟩,
     ⟨⟨.OFF, 2⟩, ⟨.OFF, 2⟩, ⟨.OFF, 2⟩⟩⟩
  | .STUDIO_X_ON_AIR =>
    ⟨⟨⟨.ON, 2⟩, ⟨.OFF, 2⟩, ⟨.OFF, 2⟩⟩,
     ⟨⟨.OFF, 2⟩, ⟨.OFF, 2⟩, ⟨.OFF, 2⟩⟩,
     ⟨⟨.OFF, 2⟩, ⟨.OFF, 2⟩, ⟨.OFF, 2⟩⟩⟩
  | .FROM_STUDIO_X_CHANGE_TO_AUTOMAT_ON_NEXT_HOUR =>
    ⟨⟨⟨.ON, 2⟩, ⟨.BLINK, 2⟩, ⟨.OFF, 2⟩⟩,
     ⟨⟨.OFF, 2⟩, ⟨.OFF, 2⟩, ⟨.OFF, 2⟩⟩,
     ⟨⟨.OFF, 2⟩, ⟨.OFF, 2⟩, ⟨.OFF, 2⟩⟩⟩
  | .STUDIO_X_ON_AIR_IMMEDIATE_STATE =>
    ⟨⟨⟨.ON, 2⟩, ⟨.OFF, 2⟩, ⟨.ON, 2⟩⟩,
     ⟨⟨.OFF, 2⟩, ⟨.OFF, 2⟩, ⟨.OFF, 2⟩⟩,
     ⟨⟨.OFF, 2⟩, ⟨.OFF, 2⟩, ⟨.OFF, 2⟩⟩⟩
  | .STUDIO_X_ON_AIR_IMMEDIATE_RELEASE =>
    ⟨⟨⟨.ON, 2⟩, ⟨.BLINK, 2⟩, ⟨.ON, 2⟩⟩,
     ⟨⟨.OFF, 2⟩, ⟨.OFF, 2⟩, ⟨.OFF, 2⟩⟩,
     ⟨⟨.OFF, 2⟩, ⟨.BLINK, 2⟩, ⟨.BLINK, 2⟩⟩⟩
  | .FROM_STUDIO_X_CHANGE_TO_STUDIO_Y_ON_NEXT_HOUR =>
    ⟨⟨⟨.ON, 2⟩, ⟨.ON, 2⟩, ⟨.OFF, 2⟩⟩,
     ⟨⟨.BLINK, 2⟩, ⟨.OFF, 2⟩, ⟨.OFF, 2⟩⟩,
     ⟨⟨.OFF, 2⟩, ⟨.OFF, 2⟩, ⟨.OFF, 2⟩⟩⟩
  | .STUDIO_X_ON_AIR_STUDIO_Y_TAKEOVER_REQUEST =>
    ⟨⟨⟨.ON, 2⟩, ⟨.BLINK, 2⟩, ⟨.OFF, 2⟩⟩,
     ⟨⟨.OFF, 2⟩, ⟨.ON, 2⟩, ⟨.OFF, 2⟩⟩,
     ⟨⟨.OFF, 2⟩, ⟨.OFF, 2⟩, ⟨.OFF, 2⟩⟩⟩
  | .NOOP =>
    ⟨⟨⟨.OFF, 2⟩, ⟨.OFF, 2⟩, ⟨.OFF, 2⟩⟩,
     ⟨⟨.OFF, 2⟩, ⟨.OFF, 2⟩, ⟨.OFF, 2⟩⟩,
     ⟨⟨.OFF, 2⟩, ⟨.OFF, 2⟩, ⟨.OFF, 2⟩⟩⟩

/-! ## `calc_next_hour_timestamp` (`dispatcher/__init__.py:502-509`)

A naive local `datetime` is modelled as integral seconds since the epoch of
a fixed-offset local clock plus a microsecond component; `timestamp()` is
exact.  `datetime.replace(minute=m, second=s)` rewrites the minute and
second fields — derived from the seconds by euclidean division — and keeps
the microsecond field untouched, exactly as Python's `replace` does. -/

/-- A naive `datetime.datetime` of a fixed-offset local clock. -/
structure PyDatetime where
  secs : ℤ
  micro : ℤ
deriving DecidableEq, Repr

/-- The `minute` field of the datetime. -/
def minuteOf (d : PyDatetime) : ℤ := d.secs / 60 % 60

/-- The `second` field of the datetime. -/
def secondOf (d : PyDatetime) : ℤ := d.secs % 60

/-- `now.replace(minute=minutes, second=seconds)`: microseconds kept. -/
def replaceMinSec (d : PyDatetime) (m s : ℤ) : PyDatetime :=
  ⟨d.secs - 60 * minuteOf d - secondOf d + 60 * m + s, d.micro⟩

/-- `dt + datetime.timedelta(hours=1)` generalised to seconds. -/
def addSeconds (d : PyDatetime) (k : ℤ) : PyDatetime :=
  ⟨d.secs + k, d.micro⟩

/-- `dt.timestamp()` on the fixed-offset clock. -/
def timestamp (d : PyDatetime) : ℚ :=
  (d.secs : ℚ) + (d.micro : ℚ) / 1000000

/-- `calc_next_hour_timestamp(minutes, seconds, now)`
(`dispatcher/__init__.py:502-509`): replace minute/second, add one hour,
take the timestamp, and subtract an hour if the distance exceeds 3600 s. -/
def calc_next_hour_timestamp (minutes seconds : ℤ) (now : PyDatetime) : ℚ :=
  let next_timestamp := timestamp (addSeconds (replaceMinSec now minutes seconds) 3600)
  if next_timestamp - timestamp now > 3600 then next_timestamp - 3600
  else next_timestamp

/-! ## `Dispatcher.load` (`dispatcher/__init__.py:459-486`) -/

/-- What the `open`/`json.load`/`_save_state` prefix of `Dispatcher.load`
produced: an `IOError` with some errno, a `json.JSONDecodeError`, or the
parsed persisted record `(x, y, state)`. -/
inductive LoadInput where
  | ioError (errno : ℤ)
  | jsonDecodeError
  | parsed (x y : Option String) (state : String)
deriving DecidableEq, Repr

/-- The entry action `load` invokes before driving the machine. -/
inductive EntryAction where
  | changeToAutomat
  | changeToStudio
deriving DecidableEq, Repr

/-- How `Dispatcher.load` returns: the two logged-and-swallowed error
paths, or normal processing of the parsed record (restored x/y, chosen
entry action, and the `to_<state>` trigger fired). -/
inductive LoadOutcome where
  | warnedMissing
  | loggedCritical
  | proceeded (x y : Option String) (entry : Option EntryAction) (trigger : String)
deriving DecidableEq, Repr

/-- Python string truthiness of the optional persisted names. -/
def truthy : Option String → Bool
  | none => false
  | some s => s ≠ ""

/-- Python's `needle in haystack` on strings: substring containment. -/
def containsSubstring (needle : List Char) : List Char → Bool
  | [] => needle.isEmpty
  | c :: rest => needle.isPrefixOf (c :: rest) || containsSubstring needle rest

/-- `Dispatcher.load` (`dispatcher/__init__.py:459-486`): an `IOError`
with errno 2 is logged as a warning, any other `IOError` and a JSON decode
error as critical — all three return normally.  On a parsed record, `_x`
is restored when `state.x` is truthy and `_y` additionally requires a
truthy `state.x`; the entry action is selected by substring tests on the
state name; finally the `to_<state>` trigger is fired. -/
def load : LoadInput → LoadOutcome
  | .ioError e => if e = 2 then .warnedMissing else .loggedCritical
  | .jsonDecodeError => .loggedCritical
  | .parsed x y st =>
    let x2 := if truthy x then x else none
    let y2 := if truthy x ∧ truthy y then y else none
    let entry :=
      if containsSubstring ("automat_on_air".data) st.data then some EntryAction.changeToAutomat
      else if containsSubstring ("studio_X_on_air".data) st.data then some EntryAction.changeToStudio
      else none
    .proceeded x2 y2 entry ("to_" ++ st)

/-! ## Helper lemmas about Python rounding -/

theorem pyRound_intCast (n : ℤ) : pyRound (n : ℚ) = n := by
  simp [pyRound, Int.floor_intCast]

theorem abs_pyRound_sub_le (q : ℚ) : |(pyRound q : ℚ) - q| ≤ 1 / 2 := by
  have h0 : (0 : ℚ) ≤ q - ⌊q⌋ := by linarith [Int.floor_le q]
  have h1 : q - ⌊q⌋ < 1 := by linarith [Int.lt_floor_add_one q]
  rw [pyRound]
  split_ifs with ha hb hc
  · rw [abs_sub_comm, abs_of_nonneg h0]; linarith
  · push_cast
    rw [abs_of_nonneg (by linarith)]
    linarith
  · have hr : q - ⌊q⌋ = 1 / 2 := by linarith
    rw [abs_sub_comm, abs_of_nonneg h0]; linarith
  · have hr : q - ⌊q⌋ = 1 / 2 := by linarith
    push_cast
    rw [abs_of_nonneg (by linarith)]
    linarith

theorem pyRound_eq_of_abs_sub_lt {q : ℚ} {n : ℤ} (h : |q - (n : ℚ)| < 1 / 2) :
    pyRound q = n := by
  rw [abs_lt] at h
  rcases le_or_lt (n : ℚ) q with hq | hq
  · have hf : ⌊q⌋ = n := Int.floor_eq_iff.mpr ⟨hq, by linarith [h.2]⟩
    rw [pyRound, hf, if_pos (by linarith [h.2])]
  · have hf : ⌊q⌋ = n - 1 := Int.floor_eq_iff.mpr ⟨by push_cast; linarith, by push_cast; linarith⟩
    rw [pyRound, hf]
    rw [if_neg (by push_cast; linarith), if_pos (by push_cast; linarith)]
    ring

/-! ## Claim theorems -/

/-- C1: the dispatcher's timer starters are meant to be no-ops while a
timer task of that kind exists and is not completed.  This holds for the
next-hour and immediate-state starters, but
`_start_immediate_release_timer`'s guard is inverted: with a stored timer
task that exists and is not done, the guard falls through and the stored
task is replaced by a freshly created one — the running timer is restarted
rather than left unchanged. -/
theorem immediate_release_timer_start_restarts_running_timer :
    start_next_hour_timer (some ⟨5, false⟩) 6 = some ⟨5, false⟩
    ∧ start_immediate_state_timer (some ⟨5, false⟩) 6 = some ⟨5, false⟩
    ∧ start_immediate_release_timer (some ⟨5, false⟩) 6 = some ⟨6, false⟩
    ∧ start_immediate_release_timer (some ⟨5, false⟩) 6 ≠ some ⟨5, false⟩ := by
  refine ⟨rfl, rfl, rfl, ?_⟩
  decide

/-- C2: the dispatcher button-event loop maps a `ButtonEvent` to the X
trigger (button name suffixed `_X`) when studio X is unset or equals the
event's studio; otherwise to the Y trigger (suffix `_Y`) when studio Y is
unset or equals the event's studio; otherwise the event is dropped and no
trigger is fired. -/
theorem button_event_trigger_mapping (x y : Option Studio) (e : ButtonEvent) :
    (x = none → processButtonEvent x y e = some (buttonName e.button ++ "_X"))
    ∧ (x = some e.studio → processButtonEvent x y e = some (buttonName e.button ++ "_X"))
    ∧ (∀ xs, x = some xs → xs ≠ e.studio → (y = none ∨ y = some e.studio) →
        processButtonEvent x y e = some (buttonName e.button ++ "_Y"))
    ∧ (∀ xs ys, x = some xs → xs ≠ e.studio → y = some ys → ys ≠ e.studio →
        processButtonEvent x y e = none) := by
  refine ⟨?_, ?_, ?_, ?_⟩
  · rintro rfl
    rfl
  · rintro rfl
    simp [processButtonEvent, buttonEventAppend]
  · rintro xs rfl hne hy
    simp [processButtonEvent, buttonEventAppend, hne, hy]
  · rintro xs ys rfl hne rfl hyne
    simp [processButtonEvent, buttonEventAppend, hne, hyne]

/-- Witness for C2: with no X studio a TAKEOVER at studio A maps to
`TAKEOVER_X`; with X = B and Y unset a RELEASE at A maps to `RELEASE_Y`;
with X = B and Y = C an IMMEDIATE at A is dropped. -/
theorem button_event_trigger_mapping_witness :
    ((none : Option Studio) = none
      ∧ processButtonEvent none none ⟨"A", .TAKEOVER⟩ = some "TAKEOVER_X")
    ∧ ("B" ≠ ("A" : Studio)
      ∧ processButtonEvent (some "B") none ⟨"A", .RELEASE⟩ = some "RELEASE_Y")
    ∧ ("C" ≠ ("A" : Studio)
      ∧ processButtonEvent (some "B") (some "C") ⟨"A", .IMMEDIATE⟩ = none) :=
  ⟨⟨rfl, (button_event_trigger_mapping none none ⟨"A", .TAKEOVER⟩).1 rfl⟩,
   ⟨by decide,
    (button_event_trigger_mapping (some "B") none ⟨"A", .RELEASE⟩).2.2.1 "B" rfl
      (by decide) (Or.inl rfl)⟩,
   ⟨by decide,
    (button_event_trigger_mapping (some "B") (some "C") ⟨"A", .IMMEDIATE⟩).2.2.2 "B" "C" rfl
      (by decide) rfl (by decide)⟩⟩

/-- C3: a datagram whose body is exactly `NAK\r` (one non-empty line
`NAK`) is delivered to the head pending callback with no match object —
which rejects its promise, whatever the callback's pattern and user
function — and the head is removed from the queue; with an empty queue the
lone NAK is logged as uncaught and discarded with no other state change. -/
theorem lone_nak_fails_head_callback (q : List ProtoCallback) :
    (∀ c rest, q = c :: rest →
      datagram_received q ("NAK\r".data)
        = ⟨rest, some (c, .rejected), [], false, []⟩)
    ∧ (q = [] →
      datagram_received q ("NAK\r".data) = ⟨[], none, [], true, []⟩) := by
  have hl : nonEmptyLines ("NAK\r".data) = [['N', 'A', 'K']] := by decide
  constructor
  · rintro c rest rfl
    simp [datagram_received, walkQueue, deliver, hl]
  · rintro rfl
    decide

/-- Witness for C3: a pending CS callback (ACK/NAK regex) is failed and
removed by a lone NAK datagram; with no pending callback the NAK is merely
logged. -/
theorem lone_nak_fails_head_callback_witness :
    (([⟨0, .assure, 1, some .ackNak⟩] : List ProtoCallback)
        = ⟨0, .assure, 1, some .ackNak⟩ :: [])
    ∧ datagram_received [⟨0, .assure, 1, some .ackNak⟩] ("NAK\r".data)
        = ⟨[], some (⟨0, .assure, 1, some .ackNak⟩, .rejected), [], false, []⟩
    ∧ datagram_received [] ("NAK\r".data) = ⟨[], none, [], true, []⟩ :=
  ⟨rfl,
   (lone_nak_fails_head_callback [⟨0, .assure, 1, some .ackNak⟩]).1 _ _ rfl,
   (lone_nak_fails_head_callback []).2 rfl⟩

/-- C5: a datagram consumed by no pending callback and not a lone
`ACK`/`NAK` has each of its non-empty lines parsed against
`^#([0-9]{5})=(-?[0-9]{4,5})$`: the matching lines yield exactly the
corresponding ControllerStates on the push channel in line order, and the
non-matching lines yield no state and exactly one logged error each. -/
theorem unconsumed_datagram_pushes_states (q : List ProtoCallback) (data : List Char)
    (h1 : walkQueue q (nonEmptyLines data) data = none)
    (h2 : nonEmptyLines data ≠ [['N', 'A', 'K']])
    (h3 : nonEmptyLines data ≠ [['A', 'C', 'K']]) :
    (datagram_received q data).pushed = (nonEmptyLines data).filterMap parsePushLine
    ∧ (datagram_received q data).errorLines
        = (nonEmptyLines data).filter (fun l => (parsePushLine l).isNone) := by
  constructor <;> simp [datagram_received, h1, h2, h3]

/-- Witness for C5: `"#00042=17000\r#00043=-0001\r"` with an empty queue
yields the push states (42, 17000) and (43, −1) in order;
`"#00042=abcd\r"` yields no push state and one logged error line. -/
theorem unconsumed_datagram_pushes_states_witness :
    (walkQueue [] (nonEmptyLines ("#00042=17000\r#00043=-0001\r".data))
        ("#00042=17000\r#00043=-0001\r".data) = none
      ∧ (datagram_received [] ("#00042=17000\r#00043=-0001\r".data)).pushed
          = [⟨42, 17000⟩, ⟨43, -1⟩])
    ∧ (walkQueue [] (nonEmptyLines ("#00042=abcd\r".data)) ("#00042=abcd\r".data) = none
      ∧ (datagram_received [] ("#00042=abcd\r".data)).pushed = []
      ∧ (datagram_received [] ("#00042=abcd\r".data)).errorLines = ["#00042=abcd".data]) :=
  ⟨⟨rfl,
    ((unconsumed_datagram_pushes_states [] ("#00042=17000\r#00043=-0001\r".data)
        rfl (by decide) (by decide)).1).trans (by decide)⟩,
   ⟨rfl,
    ((unconsumed_datagram_pushes_states [] ("#00042=abcd\r".data)
        rfl (by decide) (by decide)).1).trans (by decide),
    ((unconsumed_datagram_pushes_states [] ("#00042=abcd\r".data)
        rfl (by decide) (by decide)).2).trans (by decide)⟩⟩

/-- Counterexample for C4 as stated: the claim quantifies over every
`position_count ≥ 2`, but for `position_count = 655351` and position 2 the
mapped raw value is `round(1/10 · 65535 / 65535 ... ) = round(0.1·...)`:
`raw = round((2−1)/655350·65535) = round(1/10) = 0`, and the inverse gives
`round(0/65535·655350 + 1) = 1 ≠ 2`. -/
theorem selector_roundtrip_counterexample :
    ¬ (∀ N p : ℤ, 2 ≤ N → 1 ≤ p → p ≤ N →
        get_position_of_raw N (set_position_raw N p) = p) := by
  intro h
  have e1 : set_position_raw 655351 2 = 0 := by
    have e : (((2 : ℤ) : ℚ) - 1) / (((655351 : ℤ) : ℚ) - 1) * 65535 = 1 / 10 := by norm_num
    rw [set_position_raw, e]
    exact pyRound_eq_of_abs_sub_lt (n := 0) (by norm_num [abs_lt])
  have e2 : get_position_of_raw 655351 0 = 1 := by
    have e : ((0 : ℤ) : ℚ) / 65535 * (((655351 : ℤ) : ℚ) - 1) + 1 = ((1 : ℤ) : ℚ) := by
      norm_num
    rw [get_position_of_raw, e, pyRound_intCast]
  have hx := h 655351 2 (by norm_num) (by norm_num) (by norm_num)
  rw [e1, e2] at hx
  norm_num at hx

/-- C4 (amended): for every selector with `2 ≤ position_count ≤ 65536` and
every position `1 ≤ p ≤ position_count`, the raw mapping of `set_position`
composed with the inverse of `get_position` yields `p` again. -/
theorem selector_roundtrip (N p : ℤ) (h2 : 2 ≤ N) (hN : N ≤ 65536)
    (hp1 : 1 ≤ p) (hpN : p ≤ N) :
    get_position_of_raw N (set_position_raw N p) = p := by
  have hNq : (2 : ℚ) ≤ (N : ℚ) := by exact_mod_cast h2
  have hNne : ((N : ℚ) - 1) ≠ 0 := by linarith
  set t : ℚ := ((p : ℚ) - 1) / ((N : ℚ) - 1) * 65535 with ht
  set r : ℤ := set_position_raw N p with hr
  have hre : |(r : ℚ) - t| ≤ 1 / 2 := by
    rw [hr, set_position_raw, ← ht]; exact abs_pyRound_sub_le t
  have key : (r : ℚ) / 65535 * ((N : ℚ) - 1) + 1 - (p : ℚ)
      = ((r : ℚ) - t) * (((N : ℚ) - 1) / 65535) := by
    rw [ht]; field_simp; ring
  rw [get_position_of_raw]
  apply pyRound_eq_of_abs_sub_lt
  rw [key, abs_mul]
  rcases eq_or_lt_of_le hN with hE | hLt
  · -- position_count = 65536: the forward mapping is exact, so the error is 0
    have htE : t = ((p - 1 : ℤ) : ℚ) := by
      rw [ht, hE]; push_cast; field_simp
      left; norm_num
    have hrE : r = p - 1 := by
      rw [hr, set_position_raw, ← ht, htE, pyRound_intCast]
    rw [hrE, htE, sub_self, abs_zero, zero_mul]
    norm_num
  · -- position_count ≤ 65535: rounding error ≤ 1/2 scaled by a factor < 1
    have hNle : (N : ℚ) ≤ 65535 := by
      have : N ≤ 65535 := by omega
      exact_mod_cast this
    have hfac : |((N : ℚ) - 1) / 65535| ≤ 65534 / 65535 := by
      rw [abs_of_nonneg (by apply div_nonneg <;> linarith)]
      rw [div_le_div_iff₀ (by norm_num) (by norm_num)]
      linarith
    calc |(r : ℚ) - t| * |((N : ℚ) - 1) / 65535|
        ≤ (1 / 2) * (65534 / 65535) := by
          apply mul_le_mul hre hfac (abs_nonneg _) (by norm_num)
      _ < 1 / 2 := by norm_num

/-- Witness for C4 (amended): a four-position selector maps position 2 to
raw 21845 and back to position 2. -/
theorem selector_roundtrip_witness :
    ((2 : ℤ) ≤ 4 ∧ (4 : ℤ) ≤ 65536 ∧ (1 : ℤ) ≤ 2 ∧ (2 : ℤ) ≤ 4)
    ∧ get_position_of_raw 4 (set_position_raw 4 2) = 2 :=
  ⟨⟨by decide, by decide, by decide, by decide⟩,
   selector_roundtrip 4 2 (by decide) (by decide) (by decide) (by decide)⟩

/-- C6: for each of the ten FSM states, the LED recipe attached to the
state in `transitions.py` equals the row of the spec's LED recipe table
(§6) for that state, reading BLINK as blink at 2 Hz and FAST as blink at
4 Hz. -/
theorem led_recipes_match_spec_table (s : States) :
    led_state_target s = spec_led_recipe s := by
  cases s <;> rfl

/-- Counterexample for C7 as stated: `datetime.replace(minute=0, second=0)`
does not zero the microseconds, so for `now` = 10:30:00.500000 (epoch
seconds 37800, 500000 µs) the returned timestamp is 11:00:00.500000 =
39600.5 s, which does not fall exactly on a full hour. -/
theorem calc_next_hour_timestamp_counterexample :
    ¬ ((∃ k : ℤ, calc_next_hour_timestamp 0 0 ⟨37800, 500000⟩ = 3600 * (k : ℚ))
       ∧ 0 < calc_next_hour_timestamp 0 0 ⟨37800, 500000⟩ - timestamp ⟨37800, 500000⟩
       ∧ calc_next_hour_timestamp 0 0 ⟨37800, 500000⟩ - timestamp ⟨37800, 500000⟩ ≤ 3600) := by
  have hval : calc_next_hour_timestamp 0 0 ⟨37800, 500000⟩ = 79201 / 2 := by
    have h1 : replaceMinSec ⟨37800, 500000⟩ 0 0 = ⟨36000, 500000⟩ := by
      simp only [replaceMinSec, minuteOf, secondOf]
      norm_num
    rw [calc_next_hour_timestamp, h1]
    simp only [addSeconds, timestamp]
    norm_num
  rintro ⟨⟨k, hk⟩, -, -⟩
  rw [hval] at hk
  have h2 : (79201 : ℚ) = 7200 * (k : ℚ) := by linarith
  have h3 : (79201 : ℤ) = 7200 * k := by exact_mod_cast h2
  omega

/-- C7 (amended): for every input datetime `now`,
`calc_next_hour_timestamp(now=now)` returns the timestamp of the instant
with minute 0, second 0 and the *same* sub-second part as `now`
(microseconds are preserved, not zeroed), and its distance to
`now.timestamp()` lies in (0, 3600]. -/
theorem calc_next_hour_timestamp_spec (now : PyDatetime) :
    ∃ k : ℤ,
      calc_next_hour_timestamp 0 0 now = 3600 * (k : ℚ) + (now.micro : ℚ) / 1000000
      ∧ 0 < calc_next_hour_timestamp 0 0 now - timestamp now
      ∧ calc_next_hour_timestamp 0 0 now - timestamp now ≤ 3600 := by
  set q := now.secs with hq
  have hdecomp : q - 60 * (q / 60 % 60) - q % 60 + 60 * 0 + 0 + 3600
      = 3600 * (q / 60 / 60 + 1) := by omega
  have hbound : 0 < 3600 * (q / 60 / 60 + 1) - q ∧ 3600 * (q / 60 / 60 + 1) - q ≤ 3600 := by
    omega
  refine ⟨q / 60 / 60 + 1, ?_⟩
  have hnext : timestamp (addSeconds (replaceMinSec now 0 0) 3600)
      = 3600 * ((q / 60 / 60 + 1 : ℤ) : ℚ) + (now.micro : ℚ) / 1000000 := by
    simp only [timestamp, addSeconds, replaceMinSec, minuteOf, secondOf, ← hq]
    rw [hdecomp]
    push_cast
    ring
  have hdiff : timestamp (addSeconds (replaceMinSec now 0 0) 3600) - timestamp now
      = ((3600 * (q / 60 / 60 + 1) - q : ℤ) : ℚ) := by
    rw [hnext]
    simp only [timestamp, ← hq]
    push_cast
    ring
  have hcond : ¬ (timestamp (addSeconds (replaceMinSec now 0 0) 3600) - timestamp now > 3600) := by
    rw [hdiff]
    have : ((3600 * (q / 60 / 60 + 1) - q : ℤ) : ℚ) ≤ 3600 := by exact_mod_cast hbound.2
    linarith
  rw [calc_next_hour_timestamp]
  simp only [if_neg hcond]
  refine ⟨hnext, ?_, ?_⟩
  · rw [hdiff]
    exact_mod_cast hbound.1
  · rw [hdiff]
    exact_mod_cast hbound.2

/-- C8: `_set_raw_value(v)` with `v` different from the stored raw value
schedules each registered observer exactly once with `(old, v)`, in
registration order; with `v` equal to the stored value it schedules no
observer; hence applying the same controller state twice schedules no
observer the second time. -/
theorem set_raw_value_observer_semantics (st : CtrlState) (now now2 : ℚ) (v : ℤ) :
    (v ≠ st.raw_value →
        (set_raw_value st now v).2 = st.observer.map (fun o => (o, st.raw_value, v))
      ∧ ((set_raw_value st now v).2.map Prod.fst = st.observer
      ∧ ∀ c ∈ (set_raw_value st now v).2, c.2 = (st.raw_value, v)))
    ∧ (v = st.raw_value → (set_raw_value st now v).2 = [])
    ∧ (set_raw_value (set_raw_value st now v).1 now2 v).2 = [] := by
  refine ⟨fun h => ⟨?_, ?_⟩, fun h => ?_, ?_⟩
  · simp [set_raw_value, Ne.symm h]
  · constructor
    · simp only [set_raw_value, ne_eq, ite_not, if_neg (Ne.symm h), List.map_map]
      exact List.map_id st.observer
    · intro c hc
      simp only [set_raw_value, ne_eq, ite_not, if_neg (Ne.symm h), List.mem_map] at hc
      obtain ⟨a, -, rfl⟩ := hc
      rfl
  · simp [set_raw_value, h]
  · simp [set_raw_value]

/-- Witness for C8: a controller at raw value 0 with one observer 7: the
change to 5 schedules exactly the call (7, 0, 5); re-applying 5 schedules
nothing. -/
theorem set_raw_value_observer_semantics_witness :
    ((5 : ℤ) ≠ (0 : ℤ)
      ∧ (set_raw_value ⟨0, 0, [7]⟩ 1 5).2 = [(7, 0, 5)])
    ∧ (set_raw_value (set_raw_value ⟨0, 0, [7]⟩ 1 5).1 2 5).2 = [] :=
  ⟨⟨by decide,
    (((set_raw_value_observer_semantics ⟨0, 0, [7]⟩ 1 2 5).1 (by decide)).1).trans (by decide)⟩,
   (set_raw_value_observer_semantics ⟨0, 0, [7]⟩ 1 2 5).2.2⟩

/-- C9: `Dispatcher.load` returns normally on a missing state file and on
malformed JSON: an `IOError` with errno 2 is logged as a warning, any
other `IOError` and a `json.JSONDecodeError` are logged as critical, and
all three paths return an outcome instead of raising. -/
theorem load_error_handling (e : ℤ) :
    load (.ioError 2) = .warnedMissing
    ∧ (e ≠ 2 → load (.ioError e) = .loggedCritical)
    ∧ load .jsonDecodeError = .loggedCritical := by
  refine ⟨rfl, fun h => ?_, rfl⟩
  simp [load, h]

/-- Witness for C9: errno 13 (permission denied) is not errno 2 and is
logged as critical. -/
theorem load_error_handling_witness :
    ((13 : ℤ) ≠ 2 ∧ load (.ioError 13) = .loggedCritical) :=
  ⟨by decide, (load_error_handling 13).2.1 (by decide)⟩

/-- C10: `set_position(p)` first runs `_set_raw_value` — writing the
mapped raw value to the cache, stamping the freshness time and scheduling
the observer callbacks — and only then sends `CS` and awaits the
acknowledgement; when the device answers NAK the error propagates to the
caller while the final controller state and the emitted effect trace
(including the already-scheduled notifications) are exactly those of the
successful case: the operation is not atomic on error. -/
theorem set_position_not_atomic_on_nak (st : CtrlState) (now : ℚ) (N : ℤ) (cn : ℕ)
    (p : ℤ) (h1 : 1 ≤ p) (h2 : p ≤ N) :
    set_position st now N cn p .nak =
      ((set_raw_value st now (set_position_raw N p)).1,
       Eff.cacheWrite (set_position_raw N p) :: Eff.stampTime now ::
         ((set_raw_value st now (set_position_raw N p)).2.map
            (fun c => Eff.scheduleObserver c.1 c.2.1 c.2.2) ++
          [Eff.sendCS cn (set_position_raw N p), Eff.awaitAck]),
       .error .protocolNak)
    ∧ (set_position st now N cn p .nak).1 = (set_position st now N cn p .ack).1
    ∧ (set_position st now N cn p .nak).2.1 = (set_position st now N cn p .ack).2.1 := by
  have hc : 1 ≤ p ∧ p ≤ N := ⟨h1, h2⟩
  refine ⟨?_, ?_, ?_⟩ <;> simp [set_position, hc]

/-- Witness for C10: a four-position selector at raw 0 with one observer,
set to position 2 with the device answering NAK: the final state and
trace agree with the ACK case. -/
theorem set_position_not_atomic_on_nak_witness :
    ((1 : ℤ) ≤ 2 ∧ (2 : ℤ) ≤ 4)
    ∧ (set_position ⟨0, 0, [3]⟩ 1 4 10 2 .nak).1 = (set_position ⟨0, 0, [3]⟩ 1 4 10 2 .ack).1
    ∧ (set_position ⟨0, 0, [3]⟩ 1 4 10 2 .nak).2.1
        = (set_position ⟨0, 0, [3]⟩ 1 4 10 2 .ack).2.1 :=
  ⟨⟨by decide, by decide⟩,
   (set_position_not_atomic_on_nak ⟨0, 0, [3]⟩ 1 4 10 2 (by decide) (by decide)).2⟩
